import Mathlib

/-!
Verification of the transit-accessibility pipeline of this repository.

The Lean definitions below are a shallow embedding of the Python sources:

* `transit_accessibility_analysis.py` — the `Workspace` class: GeoJSON import
  (`import_geojson`), the impedance raster (`create_impedance_raster`), the
  travel-time arithmetic (`calculate_travel_time`), the isochrone
  reclassification (`classify_isochrones`), the per-building exclusion flag
  (`calculate_building_travel_times`) and the license gate of `run_analysis`.
* `fetchers.py` — `_overpass_to_geojson` (Overpass elements to GeoJSON).
* `utils.py` — the `fallback` retry decorator.
* `run_all_gminas_service_area.py` — `slugify`, `process_gmina`, the batch
  loop of `main`, and the configured cutoff sequence `[5, 10, 15]`.

Machine floats of the source are modelled as exact rationals (`ℚ`); Python
exceptions are modelled with `Option`/`Except`; the ArcGIS engine calls are
modelled by their documented behaviour, noted in the doc comment of each
definition that touches one.
-/

/-! ## Travel-time arithmetic (`calculate_travel_time`, `process_gmina`) -/

/-- `self.walking_speed_kmh = 5.0` set in `Workspace.__init__`. -/
def walking_speed_kmh : ℚ := 5

/-- `speed_mps = (self.walking_speed_kmh * 1000) / 3600.0`
(`calculate_travel_time`, line 237). -/
def speed_mps (speedKmh : ℚ) : ℚ := speedKmh * 1000 / 3600

/-- `min_per_meter_network = (1.0 / speed_mps) / 60.0`
(`calculate_travel_time`, line 238): the per-meter cost, in minutes, of a
network cell (impedance value 1.0). -/
def min_per_meter_network (speedKmh : ℚ) : ℚ := 1 / speed_mps speedKmh / 60

/-- The travel-time weight, in minutes, of traversing `lengthMeters` meters of
network: the cost surface is the impedance raster (value 1 on the network)
scaled by `min_per_meter_network`, so a network path of `L` meters accumulates
`L * min_per_meter_network`. -/
def edge_weight_minutes (speedKmh lengthMeters : ℚ) : ℚ :=
  lengthMeters * min_per_meter_network speedKmh

/-- `meters_per_min = (model.walking_speed_kmh * 1000.0) / 60.0`
(`run_all_gminas_service_area.process_gmina`, line 57). -/
def meters_per_min (speedKmh : ℚ) : ℚ := speedKmh * 1000 / 60

/-- `cutoffs = [c * meters_per_min for c in [5, 10, 15]]`
(`process_gmina`, line 58): one converted cutoff. -/
def cutoff_meters (speedKmh c : ℚ) : ℚ := c * meters_per_min speedKmh

/-! ## Cutoff sequence and the building exclusion flag
(`calculate_building_travel_times`) -/

/-- The configured cutoff sequence in minutes: the literal `[5, 10, 15]` of
`run_all_gminas_service_area.py` line 58 (also `run_single_gmina_service_area.py`
lines 54 and 58). -/
def cutoffs_minutes : List ℚ := [5, 10, 15]

/-- The maximum of the configured cutoff sequence. -/
def max_cutoff : ℚ := cutoffs_minutes.foldr max 0

/-- The `classify` code block of `calculate_building_travel_times`
(lines 294-299): the `is_excluded` SHORT field is 1 when the sampled
`walk_time_min` is `None` (unreachable) or greater than 15, otherwise 0.
`None` models the no-value result of `ExtractMultiValuesToPoints` at a centroid
the travel-time raster does not reach. -/
def classify (time_val : Option ℚ) : Int :=
  match time_val with
  | none => 1
  | some t => if t > 15 then 1 else 0

/-! ## Impedance raster (`create_impedance_raster`) -/

/-- A raster cell of the study extent, by integer grid coordinates. -/
def Cell : Type := ℤ × ℤ

/-- `background_cost = 10.0` (`create_impedance_raster`, line 151). -/
def background_cost : ℚ := 10

/-- `network_cost = 1.0` (`create_impedance_raster`, line 152). -/
def network_cost : ℚ := 1

/-- The background grid: the extent rectangle polygon rasterized with
`COST = background_cost`, so every cell of the study extent holds 10.0. -/
def background_grid (_c : Cell) : ℚ := background_cost

/-- The walk-network grid: the 2.5 m buffer polygons around the network lines
rasterized with `COST = network_cost` and `CELL_CENTER` assignment, so a cell
holds 1.0 exactly when it lies inside the buffer (`inBuffer`), and NoData
(`none`) elsewhere. -/
def walk_network_grid (inBuffer : Cell → Bool) (c : Cell) : Option ℚ :=
  if inBuffer c then some network_cost else none

/-- `sa.CellStatistics([bg_ras, walk_ras], "MINIMUM", "DATA")` on one cell:
the per-cell minimum of the values present, ignoring NoData ("DATA"). -/
def cellStatisticsMinimumData (vals : List (Option ℚ)) : Option ℚ :=
  (vals.filterMap id).foldr
    (fun x acc => match acc with | none => some x | some y => some (min x y)) none

/-- The `impedance_surface` raster of `create_impedance_raster` (line 224). -/
def impedance_surface (inBuffer : Cell → Bool) (c : Cell) : Option ℚ :=
  cellStatisticsMinimumData [some (background_grid c), walk_network_grid inBuffer c]

/-! ## Isochrone reclassification (`classify_isochrones`) -/

/-- The `RemapRange` table `[[0, 5, 1], [5, 10, 2], [10, 99999, 3]]` of
`classify_isochrones` (lines 258-262). -/
def remap_ranges : List (ℚ × ℚ × Int) := [(0, 5, 1), (5, 10, 2), (10, 99999, 3)]

/-- `sa.Reclassify` with a `RemapRange` table, on one cell value: each range
is inclusive of both its start and its end value, the first range containing
the value wins, and a value contained in no range becomes NoData (`none`)
(documented ArcGIS Spatial Analyst behaviour). -/
def reclassifyValue : List (ℚ × ℚ × Int) → ℚ → Option Int
  | [], _ => none
  | (lo, hi, out) :: rest, v =>
      if lo ≤ v ∧ v ≤ hi then some out else reclassifyValue rest v

/-- The `isochrones_class` raster of `classify_isochrones` on one travel-time
value. -/
def classify_isochrones (v : ℚ) : Option Int := reclassifyValue remap_ranges v

/-! ## Overpass conversion (`fetchers._overpass_to_geojson`) -/

/-- A member entry of an Overpass relation element: its `type`, `role` and the
optional `geometry` list of `[lon, lat]` coordinate pairs. -/
structure OverpassMember where
  mtype : String
  role : String
  geometry : Option (List (ℚ × ℚ))
deriving DecidableEq

/-- An Overpass element as consumed by `_overpass_to_geojson`: its `type`,
the optional `lat`/`lon` of a node, the optional `geometry` of a way, and the
optional `members` of a relation. -/
structure OverpassElement where
  etype : String
  lat : Option ℚ
  lon : Option ℚ
  geometry : Option (List (ℚ × ℚ))
  members : Option (List OverpassMember)

/-- A produced GeoJSON geometry. -/
inductive GJGeometry where
  | point (c : ℚ × ℚ)
  | lineString (cs : List (ℚ × ℚ))
  | polygon (rings : List (List (ℚ × ℚ)))
  | multiPolygon (polys : List (List (List (ℚ × ℚ))))
deriving DecidableEq

/-- Ring closing of `_overpass_to_geojson` (lines 57-58): for a nonempty
coordinate list, `if coords[0] != coords[-1]: coords.append(coords[0])`. -/
def closeWayCoords : List (ℚ × ℚ) → List (ℚ × ℚ)
  | [] => []
  | c :: cs => if (c :: cs).getLast? = some c then c :: cs else (c :: cs) ++ [c]

/-- The loop body of the relation branch (lines 51-60): a way member with
geometry and nonempty coordinates is closed, and kept when its role is
`outer`. -/
def memberOuterRing (m : OverpassMember) : Option (List (ℚ × ℚ)) :=
  if m.mtype = "way" then
    match m.geometry with
    | none => none
    | some coords =>
        if coords = [] then none
        else if m.role = "outer" then some (closeWayCoords coords) else none
  else none

/-- The `outer_rings` list collected for a relation element (lines 50-60), in
member order. -/
def relationOuterRings (ms : List OverpassMember) : List (List (ℚ × ℚ)) :=
  ms.filterMap memberOuterRing

/-- The geometry built for a relation element (lines 62-67): one outer ring
gives a Polygon, several give a MultiPolygon of one-ring parts, none gives no
feature. -/
def relationToGeometry (ms : List OverpassMember) : Option GJGeometry :=
  match relationOuterRings ms with
  | [] => none
  | [r] => some (GJGeometry.polygon [r])
  | rs => some (GJGeometry.multiPolygon (rs.map (fun r => [r])))

/-- The per-element branch of `_overpass_to_geojson` (lines 33-67): nodes with
`lat` and `lon` give Point features, ways with `geometry` give LineString
features, relations with `members` give the reconstructed polygon if any. -/
def elementToFeature (el : OverpassElement) : Option GJGeometry :=
  if el.etype = "node" then
    match el.lat, el.lon with
    | some la, some lo => some (GJGeometry.point (lo, la))
    | _, _ => none
  else if el.etype = "way" then
    match el.geometry with
    | some g => some (GJGeometry.lineString g)
    | none => none
  else if el.etype = "relation" then
    match el.members with
    | some ms => relationToGeometry ms
    | none => none
  else none

/-- The feature list written by `_overpass_to_geojson`. -/
def overpass_to_geojson (els : List OverpassElement) : List GJGeometry :=
  els.filterMap elementToFeature

/-! ## GeoJSON import (`Workspace.import_geojson`) -/

/-- A JSON value as found under `geometry.coordinates`: numbers, strings,
arrays and `null` suffice for the expressions the importer evaluates. -/
inductive JVal where
  | num (q : ℚ)
  | str (s : String)
  | arr (xs : List JVal)
  | null

mutual

/-- Python structural equality `==` on JSON values. -/
def jvalBeq : JVal → JVal → Bool
  | JVal.num a, JVal.num b => a == b
  | JVal.str a, JVal.str b => a == b
  | JVal.null, JVal.null => true
  | JVal.arr as, JVal.arr bs => jvalListBeq as bs
  | _, _ => false

/-- Python structural equality `==` on JSON arrays, elementwise. -/
def jvalListBeq : List JVal → List JVal → Bool
  | [], [] => true
  | a :: as, b :: bs => jvalBeq a b && jvalListBeq as bs
  | _, _ => false

end

/-- Python structural equality on optional JSON values. -/
def jvalOptBeq : Option JVal → Option JVal → Bool
  | some a, some b => jvalBeq a b
  | none, none => true
  | _, _ => false

/-- Python subscripting `v[n]`: succeeds only on an array that is long enough;
an `IndexError`/`TypeError` is modelled as `none`. -/
def jIndex : JVal → Nat → Option JVal
  | JVal.arr xs, n => xs.get? n
  | _, _ => none

/-- A JSON value used as a number; `arcpy.Point` raises on anything else. -/
def jNum : JVal → Option ℚ
  | JVal.num q => some q
  | _ => none

/-- `arcpy.Point(c[0], c[1])` on one coordinate entry `c`: both subscripts
must exist and be numbers, otherwise the raised error is modelled as `none`. -/
def parseCoordPair (c : JVal) : Option (ℚ × ℚ) :=
  match jIndex c 0, jIndex c 1 with
  | some a, some b =>
      match jNum a, jNum b with
      | some x, some y => some (x, y)
      | _, _ => none
  | _, _ => none

/-- An inserted shape: point, polyline or single-ring polygon. -/
inductive Shape where
  | pt (p : ℚ × ℚ)
  | line (pts : List (ℚ × ℚ))
  | poly (ring : List (ℚ × ℚ))
deriving DecidableEq

/-- The `geometry` object of one GeoJSON feature: `geom.get("type")` and
`geom.get("coordinates")`. -/
structure GJFeatureGeom where
  gtype : Option String
  coordinates : JVal

/-- One GeoJSON feature as consumed by `import_geojson`: `feat.get("geometry")`
(`none` models a missing, null or empty geometry, all falsy) and the `name`,
`highway` and `building` properties (with `""` for a missing one, as in
`props.get(..., "") or ""`). -/
structure GJFeature where
  geometry : Option GJFeatureGeom
  name : String
  highway : String
  building : String

/-- An inserted row: `[shape, name, highway, building]` with the source's
truncations `[:255]`, `[:50]`, `[:50]`. -/
structure Row where
  shape : Shape
  name : String
  highway : String
  building : String
deriving DecidableEq

/-- The row inserted for one shape (line 118). -/
def mkRow (f : GJFeature) (s : Shape) : Row :=
  { shape := s, name := f.name.take 255, highway := f.highway.take 50,
    building := f.building.take 50 }

/-- The LineString-to-polygon coercion of the POLYGON branch (lines 97-106):
a closed list of more than two coordinates is wrapped as a one-ring polygon;
otherwise the first coordinate is appended (raising `IndexError`, modelled
`none`, when the list is empty); a non-array raises (`len`/`list` fail). -/
def closedLineStringToPolys (coords : JVal) : Option (List JVal) :=
  match coords with
  | JVal.arr cs =>
      if 2 < cs.length ∧ jvalOptBeq cs.head? cs.getLast? = true then some [JVal.arr cs]
      else
        match cs.head? with
        | none => none
        | some c => some [JVal.arr (cs ++ [c])]
  | _ => none

/-- One `poly_geom` of `bg_polys` (lines 108-113): `outer_ring = poly_geom[0]`,
each entry parsed as a coordinate pair; any failure raises (modelled `none`).
A degenerate ring of fewer than three points yields an empty, falsy
`arcpy.Polygon`, which the `if poly and not poly.isMultipart` check silently
filters out (modelled as zero shapes). -/
def buildPolyShapes (poly_geom : JVal) : Option (List Shape) :=
  match jIndex poly_geom 0 with
  | none => none
  | some outer =>
      match outer with
      | JVal.arr cs =>
          match cs.mapM parseCoordPair with
          | none => none
          | some ring =>
              if 3 ≤ ring.length then some [Shape.poly ring] else some []
      | _ => none

/-- The `try` body of the import loop (lines 82-114) building `shape_list` for
one feature, given the feature-class geometry kind: `none` models a raised and
caught exception; `some []` is a silent drop. The POLYLINE branch models
`arcpy.Polyline`/`insertRow` raising on an empty coordinate array. -/
def buildShapes (geom_type : String) (g : GJFeatureGeom) : Option (List Shape) :=
  if geom_type = "POINT" ∧ g.gtype = some "Point" then
    (parseCoordPair g.coordinates).map (fun p => [Shape.pt p])
  else if geom_type = "POLYLINE" ∧ g.gtype = some "LineString" then
    match g.coordinates with
    | JVal.arr cs =>
        (cs.mapM parseCoordPair).bind
          (fun pts => if pts = [] then none else some [Shape.line pts])
    | _ => none
  else if geom_type = "POLYGON" then
    (if g.gtype = some "Polygon" then some [g.coordinates]
     else if g.gtype = some "MultiPolygon" then
       match g.coordinates with
       | JVal.arr ps => some ps
       | _ => none
     else if g.gtype = some "LineString" then closedLineStringToPolys g.coordinates
     else some []).bind
      (fun ps => (ps.mapM buildPolyShapes).map List.flatten)
  else some []

/-- The rows inserted for one feature: a missing geometry and a caught
exception both insert nothing and the loop continues (`continue`, lines 77
and 120-121). -/
def processFeature (geom_type : String) (f : GJFeature) : List Row :=
  match f.geometry with
  | none => []
  | some g =>
      match buildShapes geom_type g with
      | none => []
      | some shapes => shapes.map (mkRow f)

/-- All rows inserted by the cursor loop; `inserted_count` is their number. -/
def importRows (geom_type : String) (features : List GJFeature) : List Row :=
  (features.map (processFeature geom_type)).flatten

/-- The geometry kind of the feature class (lines 45-56): the override when
given, otherwise derived from the first feature's geometry type; `none` models
the uncaught `KeyError`/`TypeError` of `features[0]["geometry"]["type"]` when
the first feature lacks a geometry type. -/
def chooseGeomType (features : List GJFeature) (geometry_type_override : Option String) :
    Option String :=
  match geometry_type_override with
  | some t => some t
  | none =>
      (features.head?.bind (fun f => f.geometry)).bind (fun g =>
        g.gtype.map (fun t =>
          if t = "Point" then "POINT"
          else if t = "LineString" then "POLYLINE"
          else if t = "Polygon" ∨ t = "MultiPolygon" then "POLYGON"
          else "POINT"))

/-- The observable outcome of `import_geojson`: the value the method returns
(the `out_fc` path, line 130/135) and the two counts it logs (line 123). -/
structure ImportOutcome where
  returned_out_fc : String
  logged_inserted : Nat
  logged_attempted : Nat
  rows : List Row
deriving DecidableEq

/-- `Workspace.import_geojson` (lines 34-135): an empty feature list raises
`ValueError` (line 43); a first feature without a geometry type raises when no
override is given; otherwise the cursor loop runs over every feature and the
method returns the output feature-class path. -/
def import_geojson (workspace output_name : String) (features : List GJFeature)
    (geometry_type_override : Option String) : Except String ImportOutcome :=
  if features.isEmpty then Except.error "No features"
  else
    match chooseGeomType features geometry_type_override with
    | none => Except.error "first feature has no geometry type"
    | some gt =>
        Except.ok
          { returned_out_fc := workspace ++ "/" ++ output_name,
            logged_inserted := (importRows gt features).length,
            logged_attempted := features.length,
            rows := importRows gt features }

/-- The drop condition of claim C10: a feature geometry type that matches no
insert branch of the chosen kind (a LineString in a polygon import does match
one). -/
def mismatchDropped (geom_type t : String) : Prop :=
  (geom_type = "POINT" ∧ t ≠ "Point")
  ∨ (geom_type = "POLYLINE" ∧ t ≠ "LineString")
  ∨ (geom_type = "POLYGON" ∧ t ≠ "Polygon" ∧ t ≠ "MultiPolygon" ∧ t ≠ "LineString")

/-- A concrete well-formed Point feature. -/
def featPtGood : GJFeature :=
  { geometry := some { gtype := some "Point",
                       coordinates := JVal.arr [JVal.num 21, JVal.num 53] },
    name := "a", highway := "", building := "" }

/-- A second concrete well-formed Point feature. -/
def featPtGood2 : GJFeature :=
  { geometry := some { gtype := some "Point",
                       coordinates := JVal.arr [JVal.num 22, JVal.num 54] },
    name := "b", highway := "", building := "" }

/-- A Point feature with an empty coordinate array: `coords[0]` raises
`IndexError`, so the feature is skipped. -/
def featPtEmpty : GJFeature :=
  { geometry := some { gtype := some "Point", coordinates := JVal.arr [] },
    name := "c", highway := "", building := "" }

/-! ## Batch runner (`run_all_gminas_service_area.py`) -/

/-- Dash-run collapsing: `while "--" in safe: safe = safe.replace("--", "-")`
(`slugify`, lines 29-30), which collapses every run of dashes to one dash. -/
def collapseDashes : List Char → List Char
  | [] => []
  | [c] => [c]
  | c :: d :: rest =>
      if c = '-' ∧ d = '-' then collapseDashes (d :: rest)
      else c :: collapseDashes (d :: rest)

/-- `safe.strip("-")` (`slugify`, line 31). -/
def stripDashes (s : List Char) : List Char :=
  ((s.dropWhile (fun ch => ch = '-')).reverse.dropWhile (fun ch => ch = '-')).reverse

/-- `run_all_gminas_service_area.slugify` (lines 20-31), for ASCII input: the
NFKD fold of the external `unicodedata` module is the identity on ASCII, then
lowercase, replace non-alphanumeric characters (other than `-` and `_`) by
`-`, collapse dash runs, strip outer dashes, and fall back to `"gmina"`. -/
def slugify (value : String) : String :=
  let ascii_text := value.data.map Char.toLower
  let safe := ascii_text.map
    (fun ch => if ch.isAlphanum ∨ ch = '-' ∨ ch = '_' then ch else '-')
  let stripped := stripDashes (collapseDashes safe)
  if stripped = [] then "gmina" else String.mk stripped

/-- One entry of the gmina index: its `name` and `id` keys. -/
structure GminaRec where
  name : Option String
  id : Nat

/-- `gmina.get("name") or f"gmina_{gmina.get('id')}"` (`process_gmina`,
line 41): a missing or empty (falsy) name falls back to the id form. -/
def gminaName (g : GminaRec) : String :=
  match g.name with
  | some n => if n = "" then "gmina_" ++ toString g.id else n
  | none => "gmina_" ++ toString g.id

/-- The four required input paths of `process_gmina` (lines 44-47), in the
order they are checked (line 49). -/
def gminaInputPaths (dataDir : String) (g : GminaRec) : List String :=
  let gdir := dataDir ++ "/" ++ slugify (gminaName g)
  [gdir ++ "/osm_stops.geojson", gdir ++ "/osm_boundary.geojson",
   gdir ++ "/osm_road_network.geojson", gdir ++ "/osm_buildings.geojson"]

/-- `process_gmina` (lines 34-74): the first missing input file raises
`FileNotFoundError` (lines 49-51); otherwise the analysis runs and the pair
`(name, access_pct)` is returned. The service-area analysis itself is the
`ArcGisPipeline` methods, which are not present in the repository sources, so
its result is abstracted as the parameter `analysisPct`. -/
def process_gmina (fsExists : String → Bool) (analysisPct : GminaRec → ℚ)
    (dataDir : String) (g : GminaRec) : Except String (String × ℚ) :=
  match (gminaInputPaths dataDir g).find? (fun p => ! fsExists p) with
  | some p => Except.error ("Brak pliku: " ++ p)
  | none => Except.ok (gminaName g, analysisPct g)

/-- The `for gmina in index` loop of `main` (lines 100-103): each successful
`process_gmina` appends one CSV row; an exception propagates out of the loop
uncaught, so the rows written so far are kept, the error is recorded, and no
later index entry is processed. -/
def mainLoop (fsExists : String → Bool) (analysisPct : GminaRec → ℚ)
    (dataDir : String) : List GminaRec → List (String × ℚ) × Option String
  | [] => ([], none)
  | g :: rest =>
      match process_gmina fsExists analysisPct dataDir g with
      | Except.error e => ([], some e)
      | Except.ok row =>
          let r := mainLoop fsExists analysisPct dataDir rest
          (row :: r.1, r.2)

/-! ## The Spatial Analyst license gates (`run_analysis`, `main.py`) -/

/-- Python truthiness of a string: only the empty string is falsy. -/
def pyStrTruthy (s : String) : Bool := s ≠ ""

/-- The guard `if not arcpy.CheckExtension("Spatial")` of `run_analysis`
(lines 312-313), as a function of the status string `CheckExtension` returns
(one of the nonempty words `"Available"`, `"Unavailable"`, `"NotLicensed"`,
`"Failed"`): `true` means the `raise Exception(...)` fires before any
geometry import. -/
def run_analysis_license_gate (checkExtensionResult : String) : Bool :=
  ! pyStrTruthy checkExtensionResult

/-- The guard of `main.check_spatial_analyst_license` (lines 38-42):
`true` means its `raise RuntimeError(...)` fires. -/
def check_spatial_analyst_license_raises (status : String) : Bool :=
  status ≠ "Available"

/-! ## The `fallback` retry decorator (`utils.py`) -/

/-- The `for attempt in range(1, max_retries + 1)` loop of `fallback.wrapper`
(lines 13-21), by recursion on the remaining attempt count. `f k` is the
outcome of the k-th invocation of the wrapped function. The result triple is
the list of sleep delays performed, the number of invocations, and the final
outcome; `Except.error none` models `raise last_exception` with no attempt
ever made (`max_retries = 0`, where `last_exception` is still `None`). -/
def fallbackGo {α ε : Type} (f : Nat → Except ε α) (backoff_factor : ℚ) :
    Nat → ℚ → Nat → List ℚ × Nat × Except (Option ε) α
  | _, _, 0 => ([], 0, Except.error none)
  | attempt, _, 1 =>
      match f attempt with
      | Except.ok a => ([], 1, Except.ok a)
      | Except.error e => ([], 1, Except.error (some e))
  | attempt, delay, Nat.succ (Nat.succ m) =>
      match f attempt with
      | Except.ok a => ([], 1, Except.ok a)
      | Except.error _ =>
          let r := fallbackGo f backoff_factor (attempt + 1) (delay * backoff_factor)
            (Nat.succ m)
          (delay :: r.1, r.2.1 + 1, r.2.2)

/-- The wrapper produced by `fallback(max_retries, initial_delay,
backoff_factor)`: attempts start at 1 with the initial delay. The source
defaults are `max_retries=3`, `initial_delay=1`, `backoff_factor=2`. -/
def fallbackRun {α ε : Type} (max_retries : Nat) (initial_delay backoff_factor : ℚ)
    (f : Nat → Except ε α) : List ℚ × Nat × Except (Option ε) α :=
  fallbackGo f backoff_factor 1 initial_delay max_retries

/-- A concrete wrapped function for witnesses: fails twice, succeeds third. -/
def failTwice : Nat → Except String Nat :=
  fun k => if k < 3 then Except.error ("boom " ++ toString k) else Except.ok 42

/-! ## Theorems for the arithmetic and classification claims -/

/-- C2: for every length L ≥ 0 and walking speed S > 0, the network weight in
minutes of L meters equals `L / (S*1000/60)` exactly; the per-meter network
cost of `calculate_travel_time` equals `1 / (S*1000/60)`; and the distance
cutoffs of `process_gmina` convert minutes `c` to meters as `c * (S*1000/60)`. -/
theorem calculate_travel_time_weight_formula (S L c : ℚ) (hS : 0 < S) (_hL : 0 ≤ L) :
    min_per_meter_network S = 1 / (S * 1000 / 60)
    ∧ edge_weight_minutes S L = L / (S * 1000 / 60)
    ∧ cutoff_meters S c = c * (S * 1000 / 60) := by
  have hS0 : S ≠ 0 := ne_of_gt hS
  refine ⟨?_, ?_, ?_⟩
  · unfold min_per_meter_network speed_mps
    field_simp
    ring
  · unfold edge_weight_minutes min_per_meter_network speed_mps
    field_simp
    ring
  · unfold cutoff_meters meters_per_min
    ring

/-- Witness for C2: the formulas evaluated at S = 5 km/h, L = 100 m, c = 5 min. -/
theorem calculate_travel_time_weight_formula_witness :
    min_per_meter_network 5 = 1 / (5 * 1000 / 60)
    ∧ edge_weight_minutes 5 100 = 100 / (5 * 1000 / 60)
    ∧ cutoff_meters 5 5 = 5 * (5 * 1000 / 60) :=
  calculate_travel_time_weight_formula 5 100 5 (by norm_num) (by norm_num)

/-- C1: the `is_excluded` flag computed by `calculate_building_travel_times`
equals 1 exactly when the sampled `walk_time_min` is null or exceeds the
maximum cutoff of the configured cutoff sequence `[5, 10, 15]`, and equals 0
otherwise. -/
theorem calculate_building_travel_times_is_excluded_iff (t : Option ℚ) :
    (classify t = 1 ↔ (t = none ∨ ∃ v, t = some v ∧ max_cutoff < v))
    ∧ (classify t = 0 ↔ ¬ (t = none ∨ ∃ v, t = some v ∧ max_cutoff < v)) := by
  have hmax : max_cutoff = 15 := by
    unfold max_cutoff cutoffs_minutes
    norm_num
  cases t with
  | none => simp [classify]
  | some v =>
      have hP : ((some v : Option ℚ) = none ∨ ∃ w, (some v : Option ℚ) = some w ∧ max_cutoff < w)
          ↔ 15 < v := by
        simp [hmax]
      by_cases h : 15 < v
      · simp [classify, hP, hmax, h]
      · simp [classify, hP, hmax, h]

/-- C3: the impedance raster holds 1.0 on every cell inside the 2.5 m network
buffer and 10.0 on every other cell of the study extent; the two grids are
combined by the per-cell minimum. -/
theorem create_impedance_raster_cell_values (inBuffer : Cell → Bool) (c : Cell) :
    impedance_surface inBuffer c
      = some (if inBuffer c then network_cost else background_cost) := by
  unfold impedance_surface walk_network_grid background_grid cellStatisticsMinimumData
  by_cases h : inBuffer c
  · simp [h, network_cost, background_cost]
  · simp [h]

/-- Counterexample for C4: the claim maps `[5,10)` to bin 2 and `[10,∞)` to
bin 3, but the `RemapRange` table gives the boundary value 5 bin 1 (ranges are
inclusive of their end value and the first range wins) and gives a value above
the literal upper limit 99999 no bin at all (NoData). -/
theorem classify_isochrones_boundary_cex :
    classify_isochrones 5 = some 1 ∧ ¬ classify_isochrones 5 = some 2
    ∧ classify_isochrones 100000 = none ∧ ¬ classify_isochrones 100000 = some 3 := by
  exact ⟨by decide, by decide, by decide, by decide⟩

/-- C4 amended: `classify_isochrones` maps a travel-time value t ≥ 0 to bin 1
on `[0,5]`, bin 2 on `(5,10]`, bin 3 on `(10,99999]`, and to NoData above
99999; the bin boundaries 5 and 10 are the non-maximal cutoffs of the
configured sequence. -/
theorem classify_isochrones_bins (t : ℚ) (h : 0 ≤ t) :
    classify_isochrones t
      = if t ≤ 5 then some 1
        else if t ≤ 10 then some 2
        else if t ≤ 99999 then some 3
        else none := by
  by_cases h1 : t ≤ 5
  · simp [classify_isochrones, reclassifyValue, remap_ranges, h, h1]
  · have h1' : (5 : ℚ) ≤ t := le_of_lt (not_le.mp h1)
    by_cases h2 : t ≤ 10
    · simp [classify_isochrones, reclassifyValue, remap_ranges, h1, h1', h2]
    · have h2' : (10 : ℚ) ≤ t := le_of_lt (not_le.mp h2)
      by_cases h3 : t ≤ 99999
      · simp [classify_isochrones, reclassifyValue, remap_ranges, h1, h2, h2', h3]
      · simp [classify_isochrones, reclassifyValue, remap_ranges, h1, h2, h3]

/-- Witness for C4 amended: the bins evaluated at t = 7. -/
theorem classify_isochrones_bins_witness :
    (0 : ℚ) ≤ 7 ∧ classify_isochrones 7 = some 2 := by
  refine ⟨by norm_num, ?_⟩
  have h := classify_isochrones_bins 7 (by norm_num)
  simpa using h

/-- Helper: the closing step of `_overpass_to_geojson` turns a nonempty
coordinate list into a nonempty closed ring (first = last). -/
theorem closeWayCoords_closed (coords : List (ℚ × ℚ)) (h : coords ≠ []) :
    closeWayCoords coords ≠ []
    ∧ (closeWayCoords coords).head? = (closeWayCoords coords).getLast? := by
  match coords with
  | [] => exact absurd rfl h
  | c :: cs =>
      have hconcat : ((c :: cs) ++ [c]).getLast? = some c := by
        rw [List.getLast?_append_cons]
        rfl
      by_cases hcl : (c :: cs).getLast? = some c
      · simp [closeWayCoords, hcl]
      · have hcw : closeWayCoords (c :: cs) = (c :: cs) ++ [c] := by
          simp [closeWayCoords, hcl]
        refine ⟨by simp [hcw], ?_⟩
        rw [hcw, hconcat]
        rfl

/-- C5: for a relation element, every collected outer ring is nonempty and
closed; an open member ring is closed by appending its first coordinate; one
outer ring yields a Polygon, several yield a MultiPolygon of one-ring parts;
and a relation with no outer ring yields no feature and leaves the rest of the
element list processed unchanged (silently dropped, not fatal). -/
theorem overpass_relation_polygon_reconstruction (ms : List OverpassMember) :
    (∀ r ∈ relationOuterRings ms, r ≠ [] ∧ r.head? = r.getLast?)
    ∧ (∀ (c : ℚ × ℚ) (cs : List (ℚ × ℚ)), (c :: cs).getLast? ≠ some c →
        closeWayCoords (c :: cs) = (c :: cs) ++ [c])
    ∧ (∀ r, relationOuterRings ms = [r] →
        relationToGeometry ms = some (GJGeometry.polygon [r]))
    ∧ (∀ r1 r2 rs, relationOuterRings ms = r1 :: r2 :: rs →
        relationToGeometry ms
          = some (GJGeometry.multiPolygon ((r1 :: r2 :: rs).map (fun r => [r]))))
    ∧ (relationOuterRings ms = [] → relationToGeometry ms = none)
    ∧ (∀ (el : OverpassElement) (els1 els2 : List OverpassElement),
        el.etype = "relation" → el.members = some ms → relationOuterRings ms = [] →
        overpass_to_geojson (els1 ++ el :: els2) = overpass_to_geojson (els1 ++ els2)) := by
  refine ⟨?_, ?_, ?_, ?_, ?_, ?_⟩
  · intro r hr
    rw [relationOuterRings, List.mem_filterMap] at hr
    obtain ⟨m, _, heq⟩ := hr
    by_cases hw : m.mtype = "way"
    · cases hg : m.geometry with
      | none => simp [memberOuterRing, hw, hg] at heq
      | some coords =>
          by_cases hc : coords = []
          · simp [memberOuterRing, hw, hg, hc] at heq
          · by_cases ho : m.role = "outer"
            · have hcr : closeWayCoords coords = r := by
                simpa [memberOuterRing, hw, hg, hc, ho] using heq
              rw [← hcr]
              exact closeWayCoords_closed coords hc
            · simp [memberOuterRing, hw, hg, hc, ho] at heq
    · simp [memberOuterRing, hw] at heq
  · intro c cs hne
    simp [closeWayCoords, hne]
  · intro r h
    rw [relationToGeometry, h]
  · intro r1 r2 rs h
    rw [relationToGeometry, h]
  · intro h
    rw [relationToGeometry, h]
  · intro el els1 els2 h1 h2 h3
    have hel : elementToFeature el = none := by
      rw [elementToFeature, h1]
      simp [relationToGeometry, h2, h3]
    simp [overpass_to_geojson, List.filterMap_append, hel]

/-- Witness for C5: one open outer-ring member is closed and yields a Polygon;
a relation whose only member has role `inner` yields no feature. -/
theorem overpass_relation_polygon_reconstruction_witness :
    relationToGeometry [OverpassMember.mk "way" "outer"
        (some [((0 : ℚ), (0 : ℚ)), (1, 0), (1, 1)])]
      = some (GJGeometry.polygon [[((0 : ℚ), (0 : ℚ)), (1, 0), (1, 1), (0, 0)]])
    ∧ relationToGeometry [OverpassMember.mk "way" "inner"
        (some [((0 : ℚ), (0 : ℚ)), (1, 0), (1, 1)])] = none :=
  ⟨(overpass_relation_polygon_reconstruction
      [OverpassMember.mk "way" "outer" (some [((0 : ℚ), (0 : ℚ)), (1, 0), (1, 1)])]).2.2.1
      [((0 : ℚ), (0 : ℚ)), (1, 0), (1, 1), (0, 0)] (by decide),
   (overpass_relation_polygon_reconstruction
      [OverpassMember.mk "way" "inner" (some [((0 : ℚ), (0 : ℚ)), (1, 0), (1, 1)])]).2.2.2.2.1
      (by decide)⟩

/-- Counterexample for C6: `import_geojson` does not return the accepted and
attempted counts — it returns the output feature-class path. Two inputs of two
attempted features each, one accepting 1 feature (the second has an empty
coordinate array) and one accepting 2, produce the identical return value
`"ws/out"`, while the counts the method merely logs differ. -/
theorem import_geojson_return_value_cex :
    (import_geojson "ws" "out" [featPtGood, featPtEmpty] none).map
        ImportOutcome.returned_out_fc = Except.ok "ws/out"
    ∧ (import_geojson "ws" "out" [featPtGood, featPtGood2] none).map
        ImportOutcome.returned_out_fc = Except.ok "ws/out"
    ∧ (import_geojson "ws" "out" [featPtGood, featPtEmpty] none).map
        ImportOutcome.logged_inserted = Except.ok 1
    ∧ (import_geojson "ws" "out" [featPtGood, featPtGood2] none).map
        ImportOutcome.logged_inserted = Except.ok 2 :=
  ⟨rfl, rfl, rfl, rfl⟩

/-- C6 amended: a feature whose geometry raises during parsing is skipped and
the loop continues — the rows of every other feature are unchanged and the
collection is never aborted; the accepted and attempted counts are logged,
and the method returns the output feature-class path (not the counts). -/
theorem import_geojson_skips_bad_feature (ws name gt : String)
    (fs1 fs2 : List GJFeature) (f : GJFeature) (g : GJFeatureGeom)
    (hg : f.geometry = some g) (hbad : buildShapes gt g = none) :
    importRows gt (fs1 ++ f :: fs2) = importRows gt (fs1 ++ fs2)
    ∧ ∀ o, import_geojson ws name (fs1 ++ f :: fs2) (some gt) = Except.ok o →
        o.returned_out_fc = ws ++ "/" ++ name
        ∧ o.logged_inserted = (importRows gt (fs1 ++ fs2)).length
        ∧ o.logged_attempted = fs1.length + fs2.length + 1 := by
  have hpf : processFeature gt f = [] := by
    simp [processFeature, hg, hbad]
  have hrows : importRows gt (fs1 ++ f :: fs2) = importRows gt (fs1 ++ fs2) := by
    simp [importRows, hpf]
  refine ⟨hrows, ?_⟩
  intro o ho
  have hne : (fs1 ++ f :: fs2).isEmpty = false := by
    cases fs1 <;> simp
  simp only [import_geojson, hne, Bool.false_eq_true, if_false, chooseGeomType,
    Except.ok.injEq] at ho
  subst ho
  refine ⟨rfl, by simp [hrows], ?_⟩
  simp only [List.length_append, List.length_cons]
  omega

/-- Witness for C6 amended: a Point feature with an empty coordinate array in
the middle of two good ones contributes nothing, the other two rows survive,
and the outcome fields are the path and the counts 2 of 3. -/
theorem import_geojson_skips_bad_feature_witness :
    importRows "POINT" ([featPtGood] ++ featPtEmpty :: [featPtGood2])
      = importRows "POINT" ([featPtGood] ++ [featPtGood2])
    ∧ ∀ o, import_geojson "ws" "out" ([featPtGood] ++ featPtEmpty :: [featPtGood2])
          (some "POINT") = Except.ok o →
        o.returned_out_fc = "ws" ++ "/" ++ "out"
        ∧ o.logged_inserted = (importRows "POINT" ([featPtGood] ++ [featPtGood2])).length
        ∧ o.logged_attempted = [featPtGood].length + [featPtGood2].length + 1 :=
  import_geojson_skips_bad_feature "ws" "out" "POINT" [featPtGood] [featPtGood2]
    featPtEmpty { gtype := some "Point", coordinates := JVal.arr [] } rfl rfl

/-- C10: without an override the feature-class kind comes from the first
feature's geometry type alone, mapped Point→POINT, LineString→POLYLINE,
Polygon/MultiPolygon→POLYGON and anything else→POINT; and a feature whose
geometry type matches no insert branch of the chosen kind (with LineString
handled in a POLYGON import) inserts no row and leaves the inserted count
unchanged. -/
theorem import_geojson_first_feature_kind (fs : List GJFeature) (f : GJFeature)
    (g : GJFeatureGeom) (t : String) (h1 : fs.head? = some f)
    (h2 : f.geometry = some g) (h3 : g.gtype = some t) :
    chooseGeomType fs none
      = some (if t = "Point" then "POINT"
              else if t = "LineString" then "POLYLINE"
              else if t = "Polygon" ∨ t = "MultiPolygon" then "POLYGON"
              else "POINT")
    ∧ (∀ (gt : String) (f' : GJFeature) (g' : GJFeatureGeom) (t' : String),
        f'.geometry = some g' → g'.gtype = some t' → mismatchDropped gt t' →
        processFeature gt f' = [])
    ∧ (∀ (gt : String) (f' : GJFeature) (g' : GJFeatureGeom) (t' : String)
        (fs1 fs2 : List GJFeature),
        f'.geometry = some g' → g'.gtype = some t' → mismatchDropped gt t' →
        (importRows gt (fs1 ++ f' :: fs2)).length
          = (importRows gt (fs1 ++ fs2)).length) := by
  have hdrop : ∀ (gt : String) (f' : GJFeature) (g' : GJFeatureGeom) (t' : String),
      f'.geometry = some g' → g'.gtype = some t' → mismatchDropped gt t' →
      processFeature gt f' = [] := by
    intro gt f' g' t' hf hgt hmm
    unfold mismatchDropped at hmm
    have hsh : buildShapes gt g' = some [] := by
      rcases hmm with ⟨hq, hne⟩ | ⟨hq, hne⟩ | ⟨hq, hn1, hn2, hn3⟩
      · subst hq
        simp [buildShapes, hgt, hne]
      · subst hq
        simp [buildShapes, hgt, hne]
      · subst hq
        simp [buildShapes, hgt, hn1, hn2, hn3]
        exact ⟨[], rfl, by simp⟩
    simp [processFeature, hf, hsh]
  refine ⟨?_, hdrop, ?_⟩
  · simp [chooseGeomType, h1, h2, h3]
  · intro gt f' g' t' fs1 fs2 hf hgt hmm
    have h := hdrop gt f' g' t' hf hgt hmm
    simp [importRows, h]

/-- Witness for C10: a Point first feature chooses the POINT kind, and the
same Point feature dropped silently in a POLYLINE import: no row, count
unchanged. -/
theorem import_geojson_first_feature_kind_witness :
    chooseGeomType [featPtGood] none = some "POINT"
    ∧ processFeature "POLYLINE" featPtGood = []
    ∧ (importRows "POLYLINE" ([featPtGood2] ++ featPtGood :: [])).length
      = (importRows "POLYLINE" ([featPtGood2] ++ [])).length := by
  have h := import_geojson_first_feature_kind [featPtGood] featPtGood
      { gtype := some "Point", coordinates := JVal.arr [JVal.num 21, JVal.num 53] }
      "Point" rfl rfl rfl
  refine ⟨by simpa using h.1, ?_, ?_⟩
  · exact h.2.1 "POLYLINE" featPtGood
      { gtype := some "Point", coordinates := JVal.arr [JVal.num 21, JVal.num 53] }
      "Point" rfl rfl (by unfold mismatchDropped; decide)
  · exact h.2.2 "POLYLINE" featPtGood
      { gtype := some "Point", coordinates := JVal.arr [JVal.num 21, JVal.num 53] }
      "Point" [featPtGood2] [] rfl rfl (by unfold mismatchDropped; decide)

/-- Counterexample for C7: with areas Alpha, Beta, Gamma where only Beta's
stops file is missing, the batch loop writes Alpha's row, the
`FileNotFoundError` propagates uncaught, and Gamma — a subsequent area of the
index — is never processed and gets no row, contrary to the claim. -/
theorem run_all_gminas_batch_cex :
    mainLoop (fun p => p != "data/beta/osm_stops.geojson") (fun _ => 50) "data"
        [GminaRec.mk (some "Alpha") 1, GminaRec.mk (some "Beta") 2,
         GminaRec.mk (some "Gamma") 3]
      = ([("Alpha", 50)], some "Brak pliku: data/beta/osm_stops.geojson") := by
  rfl

/-- C7 amended: in batch mode a missing required input file for one area
aborts the entire batch: the rows of the areas processed before the failing
one are written, the error propagates, and the failing area and every
subsequent area get no row. -/
theorem run_all_gminas_batch_aborts (fsE : String → Bool) (pct : GminaRec → ℚ)
    (dataDir : String) (pre post : List GminaRec) (g : GminaRec) (e : String)
    (hpre : ∀ h ∈ pre, process_gmina fsE pct dataDir h
        = Except.ok (gminaName h, pct h))
    (hg : process_gmina fsE pct dataDir g = Except.error e) :
    mainLoop fsE pct dataDir (pre ++ g :: post)
      = (pre.map (fun h => (gminaName h, pct h)), some e) := by
  induction pre with
  | nil => simp [mainLoop, hg]
  | cons h hs ih =>
      have hh := hpre h (by simp)
      have ih' := ih (fun x hx => hpre x (by simp [hx]))
      simp [mainLoop, hh, ih']

/-- Witness for C7 amended: Alpha succeeds, Beta's stops file is missing,
Gamma is behind Beta; the loop result is Alpha's row and Beta's error. -/
theorem run_all_gminas_batch_aborts_witness :
    mainLoop (fun p => p != "data/beta/osm_stops.geojson") (fun _ => 50) "data"
        ([GminaRec.mk (some "Alpha") 1]
          ++ GminaRec.mk (some "Beta") 2 :: [GminaRec.mk (some "Gamma") 3])
      = ([GminaRec.mk (some "Alpha") 1].map (fun h => (gminaName h, (50 : ℚ))),
         some "Brak pliku: data/beta/osm_stops.geojson") :=
  run_all_gminas_batch_aborts (fun p => p != "data/beta/osm_stops.geojson")
    (fun _ => 50) "data" [GminaRec.mk (some "Alpha") 1]
    [GminaRec.mk (some "Gamma") 3] (GminaRec.mk (some "Beta") 2)
    "Brak pliku: data/beta/osm_stops.geojson"
    (by intro h hh
        simp only [List.mem_singleton] at hh
        subst hh
        rfl)
    rfl

/-- C8: the claim matches the intent (and `main.py`'s own guard), but the
guard of `run_analysis` tests Python truthiness of the status string that
`arcpy.CheckExtension` returns; every status word — including `"Unavailable"`
— is a nonempty, truthy string, so the `raise` never fires and `run_analysis`
proceeds to import geometry instead of failing immediately. `main.py`'s
`check_spatial_analyst_license` compares against `"Available"` and does
raise. -/
theorem run_analysis_license_gate_dead :
    run_analysis_license_gate "Unavailable" = false
    ∧ run_analysis_license_gate "NotLicensed" = false
    ∧ run_analysis_license_gate "Failed" = false
    ∧ check_spatial_analyst_license_raises "Unavailable" = true :=
  ⟨rfl, rfl, rfl, rfl⟩

/-- Helper: the retry loop performs at most `n` invocations. -/
theorem fallbackGo_calls_le {α ε : Type} (f : Nat → Except ε α) (b : ℚ) :
    ∀ (n attempt : Nat) (d : ℚ), (fallbackGo f b attempt d n).2.1 ≤ n := by
  intro n
  induction n with
  | zero => intro attempt d; simp [fallbackGo]
  | succ m ih =>
      intro attempt d
      cases m with
      | zero => cases hf : f attempt <;> simp [fallbackGo, hf]
      | succ k =>
          cases hf : f attempt with
          | ok a => simp [fallbackGo, hf]
          | error e =>
              have h := ih (attempt + 1) (d * b)
              simp only [fallbackGo, hf, Nat.succ_eq_add_one] at h ⊢
              omega

/-- Helper: the i-th sleep delay (0-based) is the initial delay times the
backoff factor to the i. -/
theorem fallbackGo_delays {α ε : Type} (f : Nat → Except ε α) (b : ℚ) :
    ∀ (n attempt : Nat) (d : ℚ) (i : Nat),
      i < (fallbackGo f b attempt d n).1.length →
      (fallbackGo f b attempt d n).1.get? i = some (d * b ^ i) := by
  intro n
  induction n with
  | zero => intro attempt d i hi; simp [fallbackGo] at hi
  | succ m ih =>
      intro attempt d i hi
      cases m with
      | zero => cases hf : f attempt <;> simp [fallbackGo, hf] at hi
      | succ k =>
          cases hf : f attempt with
          | ok a => simp [fallbackGo, hf] at hi
          | error e =>
              simp only [fallbackGo, hf] at hi ⊢
              cases i with
              | zero => simp
              | succ j =>
                  have hj : j < (fallbackGo f b (attempt + 1) (d * b) (k + 1)).1.length := by
                    simpa using hi
                  have h := ih (attempt + 1) (d * b) j hj
                  simp only [List.get?_cons_succ, h, Option.some.injEq]
                  ring

/-- Helper: when every attempt fails, the outcome is the error of the final
attempt. -/
theorem fallbackGo_all_fail {α ε : Type} (f : Nat → Except ε α) (b : ℚ) :
    ∀ (m attempt : Nat) (d : ℚ) (e : ε),
      (∀ k, attempt ≤ k → k ≤ attempt + m → ∃ e', f k = Except.error e') →
      f (attempt + m) = Except.error e →
      (fallbackGo f b attempt d (m + 1)).2.2 = Except.error (some e) := by
  intro m
  induction m with
  | zero =>
      intro attempt d e _ hlast
      simp only [Nat.add_zero] at hlast
      simp [fallbackGo, hlast]
  | succ j ih =>
      intro attempt d e hall hlast
      obtain ⟨e0, he0⟩ := hall attempt le_rfl (Nat.le_add_right _ _)
      have hall' : ∀ k, attempt + 1 ≤ k → k ≤ attempt + 1 + j →
          ∃ e', f k = Except.error e' := by
        intro k hk1 hk2
        exact hall k (by omega) (by omega)
      have hlast' : f (attempt + 1 + j) = Except.error e := by
        have harith : attempt + 1 + j = attempt + (j + 1) := by omega
        rw [harith]
        exact hlast
      have h := ih (attempt + 1) (d * b) e hall' hlast'
      simp only [fallbackGo, he0]
      exact h

/-- Helper: when attempt j succeeds after failures, the outcome is its value
and exactly j - attempt + 1 invocations were made. -/
theorem fallbackGo_success {α ε : Type} (f : Nat → Except ε α) (b : ℚ) :
    ∀ (n attempt : Nat) (d : ℚ) (j : Nat) (a : α),
      attempt ≤ j → j < attempt + n → f j = Except.ok a →
      (∀ k, attempt ≤ k → k < j → ∃ e', f k = Except.error e') →
      (fallbackGo f b attempt d n).2.2 = Except.ok a
      ∧ (fallbackGo f b attempt d n).2.1 = j - attempt + 1 := by
  intro n
  induction n with
  | zero => intro attempt d j a h1 h2 _ _; omega
  | succ m ih =>
      intro attempt d j a h1 h2 hok hbefore
      by_cases hj : j = attempt
      · subst hj
        cases m with
        | zero => simp [fallbackGo, hok]
        | succ k => simp [fallbackGo, hok]
      · have hlt : attempt < j := by omega
        obtain ⟨e0, he0⟩ := hbefore attempt le_rfl hlt
        cases m with
        | zero => omega
        | succ k =>
            have h := ih (attempt + 1) (d * b) j a (by omega) (by omega) hok
              (fun k' hk1 hk2 => hbefore k' (by omega) hk2)
            have hcalls := h.2
            simp only [fallbackGo, he0, Nat.succ_eq_add_one] at hcalls ⊢
            refine ⟨h.1, ?_⟩
            omega

/-- C9: a function wrapped by `fallback` is invoked at most `max_retries`
times; the delay slept before attempt k+1 is `initial_delay *
backoff_factor^(k-1)` (the i-th recorded delay, 0-based, is `d * b^i`, so
delays double at the default factor 2); if every attempt raises, the final
attempt's exception propagates; and a successful attempt returns its result
with no further invocation. -/
theorem fallback_retry_policy {α ε : Type} (max_retries : Nat) (d b : ℚ)
    (f : Nat → Except ε α) (hmax : 1 ≤ max_retries) :
    (fallbackRun max_retries d b f).2.1 ≤ max_retries
    ∧ (∀ i, i < (fallbackRun max_retries d b f).1.length →
        (fallbackRun max_retries d b f).1.get? i = some (d * b ^ i))
    ∧ (∀ e, (∀ k, 1 ≤ k → k ≤ max_retries → ∃ e', f k = Except.error e') →
        f max_retries = Except.error e →
        (fallbackRun max_retries d b f).2.2 = Except.error (some e))
    ∧ (∀ j a, 1 ≤ j → j ≤ max_retries → f j = Except.ok a →
        (∀ k, 1 ≤ k → k < j → ∃ e', f k = Except.error e') →
        (fallbackRun max_retries d b f).2.2 = Except.ok a
        ∧ (fallbackRun max_retries d b f).2.1 = j) := by
  obtain ⟨m, rfl⟩ : ∃ m, max_retries = m + 1 := ⟨max_retries - 1, by omega⟩
  refine ⟨fallbackGo_calls_le f b (m + 1) 1 d, fallbackGo_delays f b (m + 1) 1 d, ?_, ?_⟩
  · intro e hall hlast
    refine fallbackGo_all_fail f b m 1 d e ?_ ?_
    · intro k hk1 hk2
      exact hall k hk1 (by omega)
    · have harith : 1 + m = m + 1 := by omega
      rw [harith]
      exact hlast
  · intro j a h1 h2 hok hbefore
    have h := fallbackGo_success f b (m + 1) 1 d j a h1 (by omega) hok
      (fun k hk1 hk2 => hbefore k hk1 hk2)
    refine ⟨h.1, ?_⟩
    have hcalls := h.2
    show (fallbackGo f b 1 d (m + 1)).2.1 = j
    omega

/-- Witness for C9: the wrapped function `failTwice` fails at attempts 1 and 2
and succeeds at attempt 3, under the source defaults `max_retries = 3`,
`initial_delay = 1`, `backoff_factor = 2`. -/
theorem fallback_retry_policy_witness :
    (fallbackRun 3 1 2 failTwice).2.1 ≤ 3
    ∧ (∀ i, i < (fallbackRun 3 1 2 failTwice).1.length →
        (fallbackRun 3 1 2 failTwice).1.get? i = some (1 * 2 ^ i))
    ∧ (∀ e, (∀ k, 1 ≤ k → k ≤ 3 → ∃ e', failTwice k = Except.error e') →
        failTwice 3 = Except.error e →
        (fallbackRun 3 1 2 failTwice).2.2 = Except.error (some e))
    ∧ (∀ j a, 1 ≤ j → j ≤ 3 → failTwice j = Except.ok a →
        (∀ k, 1 ≤ k → k < j → ∃ e', failTwice k = Except.error e') →
        (fallbackRun 3 1 2 failTwice).2.2 = Except.ok a
        ∧ (fallbackRun 3 1 2 failTwice).2.1 = j) :=
  fallback_retry_policy 3 1 2 failTwice (by norm_num)
